import Mathlib

/-!
Verification of the three HTTP-fetch clients (traditional.cpp, async.cpp,
modern.cpp) of jgaa/modern_async_cpp_example against their specification.

The network is modelled as a fixed behavior: the outcome of hostname
resolution (an error, or an ordered candidate address list), a per-candidate
connect outcome, and, per candidate, the behavior of the server once
connected (whether writing the request succeeds, the successful read_some
results in order, and how the read stream finally terminates: graceful
end-of-stream or some other error).  Each variant's fetch is translated to a
total Lean function over that model; exceptions become an explicit failure
type recording the C++ exception thrown (boost system_error at a given
operation, or std::runtime_error with its message).
-/

/-- How the sequence of read operations finally terminates once the
successful chunks are exhausted: `eof` is a graceful close by the peer
(boost::asio::error::eof), `err` is any other read error. -/
inductive ReadEnd
  | eof
  | err
deriving DecidableEq

/-- Behavior of the server behind one candidate address, once a connection
is established: whether writing the request succeeds, the successful
read_some results in order (each one chunk of bytes), and the terminal read
outcome after those chunks. -/
structure ConnBehavior where
  sendOk : Bool
  chunks : List String
  readEnd : ReadEnd

/-- A fixed network behavior: the resolution outcome for the target host
(`none` means the resolver reports an error; `some addrs` is the ordered
candidate list, candidates named by natural numbers), which candidates
accept a TCP connection, and the server behavior at each candidate. -/
structure Network where
  resolved : Option (List Nat)
  accepts : Nat → Bool
  behavior : Nat → ConnBehavior

/-- A C++ exception escaping a fetch: a boost::system::system_error raised
by the named operation, or a std::runtime_error with the given message.
Both derive from std::exception. -/
inductive Failure
  | sysError (op : String)
  | runtimeError (msg : String)
deriving DecidableEq

/-- In-order concatenation of a list of byte chunks. -/
def concatAll : List String → String
  | [] => ""
  | c :: rest => c ++ concatAll rest

/-- Semantics of the free function boost::asio::connect(socket, iterator)
used by traditional.cpp line 57: it tries each endpoint from the iterator
in order and stops at the first that accepts; `none` means every endpoint
refused (the call then throws the last connect error). -/
def boostConnect (accepts : Nat → Bool) : List Nat → Option Nat
  | [] => none
  | a :: rest => if accepts a then some a else boostConnect accepts rest

/-- traditional.cpp Request::GetRequest (lines 87-93). -/
def traditionalGetRequest (host : String) : String :=
  "GET / HTTP/1.1\r\nHost: " ++ host ++ " \r\nConnection: close\r\n\r\n"

/-- async.cpp Request::GetRequest (lines 256-262). -/
def asyncGetRequest (host : String) : String :=
  "GET / HTTP/1.1\r\nHost: " ++ host ++ " \r\nConnection: close\r\n\r\n"

/-- modern.cpp Request::GetRequest (lines 209-215). -/
def modernGetRequest (host : String) : String :=
  "GET / HTTP/1.1\r\nHost: " ++ host ++ " \r\nConnection: close\r\n\r\n"

/-- traditional.cpp lines 63-76: `while(!ec) { rlen = read_some(..., ec);
rval.append(reply, rlen); }`.  Each successful read appends one chunk; the
loop ends on the first error of ANY kind (graceful end-of-stream or not),
appending the 0 bytes of the failed read, and `rval` is then returned.  The
terminal `ReadEnd` therefore does not influence the result. -/
def traditionalReadLoop (rval : String) : List String → String
  | [] => rval
  | c :: rest => traditionalReadLoop (rval ++ c) rest

/-- traditional.cpp Request::Fetch (lines 44-83).  `resolver.resolve`
throws on a resolution error.  The `for` loop body either returns or
throws on every path, so it runs at most one iteration: its single call to
boost::asio::connect already iterates over all remaining endpoints and
throws if every one refused.  The `runtime_error("Failed to connect to
all/any address")` at line 82 is therefore reached exactly when the
resolver returned an empty range.  boost::asio::write (line 60) throws on a
send error. -/
def traditionalFetch (host : String) (net : Network) : Except Failure String :=
  match net.resolved with
  | none => .error (.sysError "resolve")
  | some addrs =>
    match addrs with
    | [] => .error (.runtimeError "Failed to connect to all/any address")
    | _ :: _ =>
      match boostConnect net.accepts addrs with
      | none => .error (.sysError "connect")
      | some a =>
        let _req := traditionalGetRequest host
        if (net.behavior a).sendOk then
          .ok (traditionalReadLoop "" (net.behavior a).chunks)
        else
          .error (.sysError "write")

/-- async.cpp Request::OnDataRead (lines 228-253): on ANY read error the
accumulated `result_buffer_` is delivered as the success value
(`result_.set_value`); otherwise the chunk is appended and another read is
issued via FetchMoreData. -/
def asyncOnDataRead (result_buffer : String) : List String → String
  | [] => result_buffer
  | c :: rest => asyncOnDataRead (result_buffer ++ c) rest

/-- async.cpp callback chain over the remaining resolver iterator:
OnResolved (lines 123-155) throws "Failed to resolve host" when the
iterator is exhausted, otherwise connects to the current candidate;
OnConnected (lines 163-191) advances to the next candidate on a connect
error (re-posting OnResolved with a success code) and otherwise sends the
request; OnSentRequest (lines 194-208) turns a send error into
runtime_error "Failed to send request" and otherwise starts the read
chain. -/
def asyncOnResolved (host : String) (net : Network) : List Nat → Except Failure String
  | [] => .error (.runtimeError "Failed to resolve host")
  | a :: rest =>
    if net.accepts a then
      let _req := asyncGetRequest host
      if (net.behavior a).sendOk then
        .ok (asyncOnDataRead "" (net.behavior a).chunks)
      else
        .error (.runtimeError "Failed to send request")
    else
      asyncOnResolved host net rest

/-- async.cpp Request::Fetch (lines 75-109) composed with the callback
chain: the initial OnResolved call receives the resolver outcome; a
resolver error or an already-empty iterator both raise
runtime_error "Failed to resolve host" (line 126-128). -/
def asyncFetch (host : String) (net : Network) : Except Failure String :=
  match net.resolved with
  | none => .error (.runtimeError "Failed to resolve host")
  | some addrs => asyncOnResolved host net addrs

/-- modern.cpp lines 165-175: the coroutine read loop, identical in effect
to traditional.cpp's — any read error (graceful or not) ends the loop and
the accumulated `rval` is then delivered as the success value. -/
def modernReadLoop (rval : String) : List String → String
  | [] => rval
  | c :: rest => modernReadLoop (rval ++ c) rest

/-- modern.cpp Fetch_ lines 126-192: the `for` loop over the resolved
candidates.  A connect error logs to stderr and advances to the next
candidate (`continue`); a successful connect sends the request
(async_write with a plain yield, so a send error throws a system_error
that the surrounding catch turns into the delivered exception), then runs
the read loop and delivers the accumulated bytes; falling off the end of
the list throws runtime_error "Unable to connect to any host" (line 192). -/
def modernForLoop (host : String) (net : Network) : List Nat → Except Failure String
  | [] => .error (.runtimeError "Unable to connect to any host")
  | a :: rest =>
    if net.accepts a then
      let _req := modernGetRequest host
      if (net.behavior a).sendOk then
        .ok (modernReadLoop "" (net.behavior a).chunks)
      else
        .error (.sysError "write")
    else
      modernForLoop host net rest

/-- modern.cpp Request::Fetch_ (lines 86-206): `async_resolve` with a plain
yield throws a system_error on a resolution error (caught at line 193 and
delivered via `result_.set_exception`); otherwise the candidate loop
runs. -/
def modernFetch (host : String) (net : Network) : Except Failure String :=
  match net.resolved with
  | none => .error (.sysError "resolve")
  | some addrs => modernForLoop host net addrs

/-- An exception as seen at a main function's catch clauses: either an
exception derived from std::exception, carrying its what() description, or
one that is not (C++ permits throwing arbitrary values). -/
inductive Exc
  | std (what : String)
  | nonStd
deriving DecidableEq

/-- The what() description of a fetch failure.  The exact text of a boost
system_error depends on the OS error; it is modelled by the name of the
failing operation.  runtime_error's what() is its constructor message. -/
def Failure.what : Failure → String
  | .sysError op => op
  | .runtimeError msg => msg

/-- Every failure a fetch produces is a std::exception. -/
def Failure.toExc (f : Failure) : Exc := .std f.what

/-- Lift a fetch outcome to the exception level observed by main. -/
def mapFail : Except Failure String → Except Exc String
  | .ok s => .ok s
  | .error f => .error f.toExc

/-- Observable outcome of one process run: the code returned from main
(`none` when the process terminates without returning from main, e.g. via
an uncaught exception or a failed assert), the bytes the program wrote to
standard output, and the bytes it wrote to standard error. -/
structure ProcResult where
  exitCode : Option Int
  stdout : String
  stderr : String
deriving DecidableEq

/-- traditional.cpp main (lines 96-116), given the outcome of
`req.Fetch(argv[1])`: on success the page goes to stdout and main returns
0; a std::exception is caught, described on stderr and main returns -1;
there is no catch-all clause, so any other exception leaves main uncaught
(std::terminate — no return value, no program-written output). -/
def traditionalMain : Except Exc String → ProcResult
  | .ok page => ⟨some 0, page, ""⟩
  | .error (.std w) => ⟨some (-1), "", "ERROR: " ++ w ++ "\n"⟩
  | .error .nonStd => ⟨none, "", ""⟩

/-- async.cpp main (lines 265-298), given the outcome of `result.get()`:
success prints the page and returns 0; a std::exception is described on
stderr and main returns -1; any other exception is caught by the catch-all
clause, noted on stderr without a description, and main returns -2. -/
def asyncMain : Except Exc String → ProcResult
  | .ok page => ⟨some 0, page, ""⟩
  | .error (.std w) => ⟨some (-1), "", "Caught exception " ++ w ++ "\n"⟩
  | .error .nonStd => ⟨some (-2), "", "Caught exception!\n"⟩

/-- modern.cpp main (lines 218-251): identical catch structure to
async.cpp's main. -/
def modernMain : Except Exc String → ProcResult
  | .ok page => ⟨some 0, page, ""⟩
  | .error (.std w) => ⟨some (-1), "", "Caught exception " ++ w ++ "\n"⟩
  | .error .nonStd => ⟨some (-2), "", "Caught exception!\n"⟩

/-- traditional.cpp: the whole process after a successful argv check. -/
def traditionalProc (host : String) (net : Network) : ProcResult :=
  traditionalMain (mapFail (traditionalFetch host net))

/-- async.cpp: the whole process after a successful argv check. -/
def asyncProc (host : String) (net : Network) : ProcResult :=
  asyncMain (mapFail (asyncFetch host net))

/-- modern.cpp: the whole process after a successful argv check. -/
def modernProc (host : String) (net : Network) : ProcResult :=
  modernMain (mapFail (modernFetch host net))

/-- The argv check shared by all three mains:
`assert(argc == 2 && *argv[1])` — exactly two argv entries (program name
plus one argument) and a first argument whose first byte is not NUL. -/
def argvOk (args : List String) : Bool :=
  args.length == 2 &&
    (match args[1]? with
     | some a => !a.isEmpty
     | none => false)

/-- Outcome of a failed assert: the process aborts before any fetch
begins, returning no exit code from main and writing nothing itself to
stdout or stderr (the assert machinery's own diagnostic is not program
output). -/
def abortResult : ProcResult := ⟨none, "", ""⟩

/-- traditional.cpp main including the argv assert (line 99). -/
def traditionalProgram (args : List String) (net : Network) : ProcResult :=
  if argvOk args then traditionalProc (args[1]?.getD "") net else abortResult

/-- async.cpp main including the argv assert (line 268). -/
def asyncProgram (args : List String) (net : Network) : ProcResult :=
  if argvOk args then asyncProc (args[1]?.getD "") net else abortResult

/-- modern.cpp main including the argv assert (line 221). -/
def modernProgram (args : List String) (net : Network) : ProcResult :=
  if argvOk args then modernProc (args[1]?.getD "") net else abortResult

/-- The spec's failure taxonomy (spec section 7): ResolutionError,
AllConnectionsFailedError, TransferError. -/
inductive FailCat
  | ResolutionError
  | AllConnectionsFailedError
  | TransferError
deriving DecidableEq

/-- Modelled from the spec's taxonomy (section 7): the category a reader
assigns to a failure from its description.  "resolve" system errors and the
message "Failed to resolve host" indicate resolution failure; send/write
errors indicate transfer failure; connect system errors and the
connect-exhaustion messages ("Failed to connect to all/any address",
"Unable to connect to any host") indicate that all connections failed. -/
def specCategory (f : Failure) : FailCat :=
  match f with
  | .sysError op =>
    if op = "resolve" then .ResolutionError
    else if op = "connect" then .AllConnectionsFailedError
    else .TransferError
  | .runtimeError msg =>
    if msg = "Failed to resolve host" then .ResolutionError
    else if msg = "Failed to send request" then .TransferError
    else .AllConnectionsFailedError

/-- The success value of a fetch outcome, if any. -/
def resOk : Except Failure String → Option String
  | .ok s => some s
  | .error _ => none

/-- The category of a fetch outcome's failure, if it failed. -/
def failCatOf : Except Failure String → Option FailCat
  | .ok _ => none
  | .error f => some (specCategory f)

/-- Whether resolution succeeded but every candidate refuses the
connection (true in particular on an empty candidate list). -/
def allRefused (net : Network) : Bool :=
  match net.resolved with
  | none => false
  | some addrs => addrs.all (fun a => !net.accepts a)

/-- async.cpp: the sequence of writes to the one-shot promise `result_`
performed by the callback chain over the remaining candidates, in
execution order.  Each terminal callback site appears as one element:
`set_exception` in OnResolved when the iterator is exhausted,
`set_exception` in OnSentRequest on a send error, `set_value` in
OnDataRead when the read chain ends; a connect failure re-posts OnResolved
and writes nothing. -/
def asyncWritesLoop (host : String) (net : Network) : List Nat → List (Except Failure String)
  | [] => [.error (.runtimeError "Failed to resolve host")]
  | a :: rest =>
    if net.accepts a then
      let _req := asyncGetRequest host
      if (net.behavior a).sendOk then
        [.ok (asyncOnDataRead "" (net.behavior a).chunks)]
      else
        [.error (.runtimeError "Failed to send request")]
    else
      asyncWritesLoop host net rest

/-- async.cpp: all writes to the promise `result_` during one fetch. -/
def asyncWrites (host : String) (net : Network) : List (Except Failure String) :=
  match net.resolved with
  | none => [.error (.runtimeError "Failed to resolve host")]
  | some addrs => asyncWritesLoop host net addrs

/-- modern.cpp: the sequence of writes to the promise `result_` performed
by the coroutine body's candidate loop: `set_value` at line 187 on
success, `set_exception` at line 203 for every throw; a refused candidate
writes nothing and continues. -/
def modernWritesLoop (host : String) (net : Network) : List Nat → List (Except Failure String)
  | [] => [.error (.runtimeError "Unable to connect to any host")]
  | a :: rest =>
    if net.accepts a then
      let _req := modernGetRequest host
      if (net.behavior a).sendOk then
        [.ok (modernReadLoop "" (net.behavior a).chunks)]
      else
        [.error (.sysError "write")]
    else
      modernWritesLoop host net rest

/-- modern.cpp: all writes to the promise `result_` during one fetch. -/
def modernWrites (host : String) (net : Network) : List (Except Failure String) :=
  match net.resolved with
  | none => [.error (.sysError "resolve")]
  | some addrs => modernWritesLoop host net addrs

/-- A network in which the host resolves to one candidate that refuses the
connection. -/
def refuseNet : Network :=
  ⟨some [0], fun _ => false, fun _ => ⟨true, [], ReadEnd.eof⟩⟩

/-- A network in which hostname resolution itself reports an error. -/
def resolveFailNet : Network :=
  ⟨none, fun _ => false, fun _ => ⟨true, [], ReadEnd.eof⟩⟩

/-- A network in which the resolver reports success with an empty
candidate list. -/
def emptyListNet : Network :=
  ⟨some [], fun _ => false, fun _ => ⟨true, [], ReadEnd.eof⟩⟩

/-- A network in which the single candidate accepts, the request is sent,
one chunk "partial" is read, and then the read fails with an error that is
NOT a graceful end-of-stream. -/
def readErrNet : Network :=
  ⟨some [0], fun _ => true, fun _ => ⟨true, ["partial"], ReadEnd.err⟩⟩

/-- A network in which the single candidate accepts the connection but
writing the request fails. -/
def sendFailNet : Network :=
  ⟨some [0], fun _ => true, fun _ => ⟨false, [], ReadEnd.eof⟩⟩

/-- The spec's mock server: one accepting candidate that sends exactly
"HTTP/1.1 200 OK\r\n\r\nhello" (here delivered in two reads) and then
closes the connection. -/
def mockServerNet : Network :=
  ⟨some [0], fun _ => true,
   fun _ => ⟨true, ["HTTP/1.1 200 OK\r\n\r\n", "hello"], ReadEnd.eof⟩⟩

/-- A network with two candidates: candidate 0 refuses the connection,
candidate 1 accepts and serves a page.  Candidate 0's server behavior is
deliberately a poisoned value that must not appear in any result. -/
def laterCandidateNet : Network :=
  ⟨some [0, 1], fun a => a == 1,
   fun a => if a == 1 then ⟨true, ["page-from-candidate-1"], ReadEnd.eof⟩
            else ⟨true, ["POISON"], ReadEnd.eof⟩⟩

theorem traditionalReadLoop_eq (cs : List String) : ∀ acc : String,
    traditionalReadLoop acc cs = acc ++ concatAll cs := by
  induction cs with
  | nil => intro acc; simp [traditionalReadLoop, concatAll, String.append_empty]
  | cons c rest ih =>
    intro acc
    simp [traditionalReadLoop, concatAll, ih, String.append_assoc]

theorem asyncOnDataRead_eq (cs : List String) : ∀ acc : String,
    asyncOnDataRead acc cs = acc ++ concatAll cs := by
  induction cs with
  | nil => intro acc; simp [asyncOnDataRead, concatAll, String.append_empty]
  | cons c rest ih =>
    intro acc
    simp [asyncOnDataRead, concatAll, ih, String.append_assoc]

theorem modernReadLoop_eq (cs : List String) : ∀ acc : String,
    modernReadLoop acc cs = acc ++ concatAll cs := by
  induction cs with
  | nil => intro acc; simp [modernReadLoop, concatAll, String.append_empty]
  | cons c rest ih =>
    intro acc
    simp [modernReadLoop, concatAll, ih, String.append_assoc]

/-- The async callback chain over a candidate list is determined by the
first accepting candidate, exactly as boost::asio::connect is. -/
theorem asyncOnResolved_eq (host : String) (net : Network) (addrs : List Nat) :
    asyncOnResolved host net addrs =
      match boostConnect net.accepts addrs with
      | none => .error (.runtimeError "Failed to resolve host")
      | some a =>
        if (net.behavior a).sendOk then
          .ok (asyncOnDataRead "" (net.behavior a).chunks)
        else
          .error (.runtimeError "Failed to send request") := by
  induction addrs with
  | nil => rfl
  | cons a rest ih =>
    by_cases h : net.accepts a
    · simp [asyncOnResolved, boostConnect, h]
    · simp [asyncOnResolved, boostConnect, h, ih]

/-- The modern coroutine's candidate loop is determined by the first
accepting candidate, exactly as boost::asio::connect is. -/
theorem modernForLoop_eq (host : String) (net : Network) (addrs : List Nat) :
    modernForLoop host net addrs =
      match boostConnect net.accepts addrs with
      | none => .error (.runtimeError "Unable to connect to any host")
      | some a =>
        if (net.behavior a).sendOk then
          .ok (modernReadLoop "" (net.behavior a).chunks)
        else
          .error (.sysError "write") := by
  induction addrs with
  | nil => rfl
  | cons a rest ih =>
    by_cases h : net.accepts a
    · simp [modernForLoop, boostConnect, h]
    · simp [modernForLoop, boostConnect, h, ih]

/-- boost::asio::connect finds no endpoint exactly when every candidate
refuses. -/
theorem boostConnect_eq_none_iff (accepts : Nat → Bool) (addrs : List Nat) :
    boostConnect accepts addrs = none ↔ addrs.all (fun a => !accepts a) = true := by
  induction addrs with
  | nil => simp [boostConnect]
  | cons a rest ih =>
    by_cases h : accepts a
    · simp [boostConnect, h]
    · simp [boostConnect, h, ih]

/-- The async promise-write trace over a candidate list is the singleton
holding the callback chain's outcome. -/
theorem asyncWritesLoop_eq (host : String) (net : Network) (addrs : List Nat) :
    asyncWritesLoop host net addrs = [asyncOnResolved host net addrs] := by
  induction addrs with
  | nil => rfl
  | cons a rest ih =>
    by_cases h : net.accepts a
    · simp [asyncWritesLoop, asyncOnResolved, h, apply_ite (fun r => [r])]
    · simp [asyncWritesLoop, asyncOnResolved, h, ih]

/-- The modern promise-write trace over a candidate list is the singleton
holding the loop's outcome. -/
theorem modernWritesLoop_eq (host : String) (net : Network) (addrs : List Nat) :
    modernWritesLoop host net addrs = [modernForLoop host net addrs] := by
  induction addrs with
  | nil => rfl
  | cons a rest ih =>
    by_cases h : net.accepts a
    · simp [modernWritesLoop, modernForLoop, h, apply_ite (fun r => [r])]
    · simp [modernWritesLoop, modernForLoop, h, ih]

/-- When resolution succeeded and some candidate accepts, all three
variants are determined by the first accepting candidate: success with the
concatenated chunks if the send succeeds, the respective send failure
otherwise. -/
theorem fetch_connected (host : String) (net : Network) (addrs : List Nat) (a : Nat)
    (hres : net.resolved = some addrs)
    (hconn : boostConnect net.accepts addrs = some a) :
    traditionalFetch host net =
      (if (net.behavior a).sendOk then
        .ok (concatAll (net.behavior a).chunks)
      else .error (.sysError "write")) ∧
    asyncFetch host net =
      (if (net.behavior a).sendOk then
        .ok (concatAll (net.behavior a).chunks)
      else .error (.runtimeError "Failed to send request")) ∧
    modernFetch host net =
      (if (net.behavior a).sendOk then
        .ok (concatAll (net.behavior a).chunks)
      else .error (.sysError "write")) := by
  cases addrs with
  | nil => simp [boostConnect] at hconn
  | cons a0 rest =>
    refine ⟨?_, ?_, ?_⟩
    · simp [traditionalFetch, hres, hconn, traditionalReadLoop_eq, String.empty_append]
    · simp [asyncFetch, hres, asyncOnResolved_eq, hconn, asyncOnDataRead_eq,
        String.empty_append]
    · simp [modernFetch, hres, modernForLoop_eq, hconn, modernReadLoop_eq,
        String.empty_append]

/-- When resolution succeeded but no candidate accepts, each variant fails
with its own exhaustion exception, and traditional distinguishes an empty
candidate list from an exhausted non-empty one. -/
theorem fetch_refused (host : String) (net : Network) (addrs : List Nat)
    (hres : net.resolved = some addrs)
    (hconn : boostConnect net.accepts addrs = none) :
    asyncFetch host net = .error (.runtimeError "Failed to resolve host") ∧
    modernFetch host net = .error (.runtimeError "Unable to connect to any host") ∧
    (addrs = [] →
      traditionalFetch host net =
        .error (.runtimeError "Failed to connect to all/any address")) ∧
    (addrs ≠ [] → traditionalFetch host net = .error (.sysError "connect")) := by
  refine ⟨?_, ?_, ?_, ?_⟩
  · simp [asyncFetch, hres, asyncOnResolved_eq, hconn]
  · simp [modernFetch, hres, modernForLoop_eq, hconn]
  · intro he; subst he; simp [traditionalFetch, hres]
  · intro hne
    cases addrs with
    | nil => exact absurd rfl hne
    | cons a0 rest => simp [traditionalFetch, hres, hconn]

/-- Claim C6: for every hostname h, the request bytes each variant sends
are exactly "GET / HTTP/1.1\r\nHost: " ++ h ++ " \r\nConnection:
close\r\n\r\n" (with the trailing space after the host name), and the
three variants construct identical request bytes. -/
theorem c6_request_bytes (h : String) :
    traditionalGetRequest h =
      "GET / HTTP/1.1\r\nHost: " ++ h ++ " \r\nConnection: close\r\n\r\n" ∧
    asyncGetRequest h = traditionalGetRequest h ∧
    modernGetRequest h = traditionalGetRequest h :=
  ⟨rfl, rfl, rfl⟩

/-- Claim C9: on every terminal execution path of a fetch, the one-shot
promise is written exactly once — the write trace is a singleton, never
empty and never longer — and the single written value is exactly the
outcome the caller observes through the future. -/
theorem c9_exactly_one_result (host : String) (net : Network) :
    asyncWrites host net = [asyncFetch host net] ∧
    modernWrites host net = [modernFetch host net] := by
  constructor
  · cases hres : net.resolved with
    | none => simp [asyncWrites, asyncFetch, hres]
    | some addrs => simp [asyncWrites, asyncFetch, hres, asyncWritesLoop_eq]
  · cases hres : net.resolved with
    | none => simp [modernWrites, modernFetch, hres]
    | some addrs => simp [modernWrites, modernFetch, hres, modernWritesLoop_eq]

/-- Claim C7: whenever a connection is established and the request is
sent, every variant returns exactly the in-order concatenation of the
chunks delivered by successive reads — no byte duplicated, reordered or
dropped — whatever the terminal read outcome is. -/
theorem c7_concatenation (host : String) (net : Network) (addrs : List Nat) (a : Nat)
    (hres : net.resolved = some addrs)
    (hconn : boostConnect net.accepts addrs = some a)
    (hsend : (net.behavior a).sendOk = true) :
    traditionalFetch host net = .ok (concatAll (net.behavior a).chunks) ∧
    asyncFetch host net = .ok (concatAll (net.behavior a).chunks) ∧
    modernFetch host net = .ok (concatAll (net.behavior a).chunks) := by
  have h := fetch_connected host net addrs a hres hconn
  simpa [hsend] using h

/-- Claim C7 witness: the spec's mock server, sending exactly
"HTTP/1.1 200 OK\r\n\r\nhello" (in two reads) and then closing: every
variant returns exactly that string. -/
theorem c7_witness :
    traditionalFetch "example.com" mockServerNet = .ok "HTTP/1.1 200 OK\r\n\r\nhello" ∧
    asyncFetch "example.com" mockServerNet = .ok "HTTP/1.1 200 OK\r\n\r\nhello" ∧
    modernFetch "example.com" mockServerNet = .ok "HTTP/1.1 200 OK\r\n\r\nhello" := by
  have h := c7_concatenation "example.com" mockServerNet [0] 0 rfl rfl rfl
  exact h

/-- Claim C8: if the first candidate refuses the connection but a later
one accepts, every variant succeeds using the first accepting candidate,
the result is exactly that candidate's served bytes (so it holds no data
from any failed attempt), and the candidates after the first accepting one
never influence the result (the network is arbitrary there). -/
theorem c8_first_accepting (host : String) (net : Network) (a0 : Nat) (rest : List Nat)
    (a : Nat)
    (hres : net.resolved = some (a0 :: rest))
    (h0 : net.accepts a0 = false)
    (hconn : boostConnect net.accepts rest = some a)
    (hsend : (net.behavior a).sendOk = true) :
    traditionalFetch host net = .ok (concatAll (net.behavior a).chunks) ∧
    asyncFetch host net = .ok (concatAll (net.behavior a).chunks) ∧
    modernFetch host net = .ok (concatAll (net.behavior a).chunks) := by
  have hconn2 : boostConnect net.accepts (a0 :: rest) = some a := by
    simp [boostConnect, h0, hconn]
  have h := fetch_connected host net (a0 :: rest) a hres hconn2
  simpa [hsend] using h

/-- Claim C8 witness: candidate 0 refuses, candidate 1 accepts and serves
"page-from-candidate-1"; every variant returns exactly that page and none
of candidate 0's poisoned bytes. -/
theorem c8_witness :
    traditionalFetch "example.com" laterCandidateNet = .ok "page-from-candidate-1" ∧
    asyncFetch "example.com" laterCandidateNet = .ok "page-from-candidate-1" ∧
    modernFetch "example.com" laterCandidateNet = .ok "page-from-candidate-1" := by
  have h := c8_first_accepting "example.com" laterCandidateNet 0 [1] 1 rfl rfl rfl rfl
  exact h

/-- Claim C2 counterexample: with a connected candidate that serves one
chunk "partial" and then fails the read with an error that is NOT a
graceful end-of-stream, every variant treats that mid-transfer error as
successful completion and returns the bytes accumulated so far — the
operation is not failed with a transfer error. -/
theorem c2_counterexample :
    (readErrNet.behavior 0).readEnd = ReadEnd.err ∧
    traditionalFetch "example.com" readErrNet = .ok "partial" ∧
    asyncFetch "example.com" readErrNet = .ok "partial" ∧
    modernFetch "example.com" readErrNet = .ok "partial" :=
  ⟨rfl, rfl, rfl, rfl⟩

/-- Claim C2 as amended: once a candidate is connected, an error while
SENDING the request does fail the operation (a transfer-category failure:
traditional and modern deliver the system_error of the write, async a
runtime_error "Failed to send request") and abandons all remaining
candidates; but ANY error while reading — graceful end-of-stream or not —
ends the read loop and the fetch completes successfully with the bytes
accumulated so far. -/
theorem c2_send_read_errors (host : String) (net : Network) (addrs : List Nat) (a : Nat)
    (hres : net.resolved = some addrs)
    (hconn : boostConnect net.accepts addrs = some a) :
    ((net.behavior a).sendOk = false →
      traditionalFetch host net = .error (.sysError "write") ∧
      asyncFetch host net = .error (.runtimeError "Failed to send request") ∧
      modernFetch host net = .error (.sysError "write") ∧
      failCatOf (traditionalFetch host net) = some FailCat.TransferError ∧
      failCatOf (asyncFetch host net) = some FailCat.TransferError ∧
      failCatOf (modernFetch host net) = some FailCat.TransferError) ∧
    ((net.behavior a).sendOk = true →
      traditionalFetch host net = .ok (concatAll (net.behavior a).chunks) ∧
      asyncFetch host net = .ok (concatAll (net.behavior a).chunks) ∧
      modernFetch host net = .ok (concatAll (net.behavior a).chunks)) := by
  obtain ⟨h1, h2, h3⟩ := fetch_connected host net addrs a hres hconn
  constructor
  · intro hs
    simp only [hs, Bool.false_eq_true, if_false] at h1 h2 h3
    refine ⟨h1, h2, h3, ?_, ?_, ?_⟩
    · rw [h1]; decide
    · rw [h2]; decide
    · rw [h3]; decide
  · intro hs
    simp only [hs, if_true] at h1 h2 h3
    exact ⟨h1, h2, h3⟩

/-- Claim C2 witness: one accepting candidate on which the request write
fails: each variant fails with its transfer-category error. -/
theorem c2_witness :
    traditionalFetch "example.com" sendFailNet = .error (.sysError "write") ∧
    asyncFetch "example.com" sendFailNet = .error (.runtimeError "Failed to send request") ∧
    modernFetch "example.com" sendFailNet = .error (.sysError "write") ∧
    failCatOf (traditionalFetch "example.com" sendFailNet) = some FailCat.TransferError ∧
    failCatOf (asyncFetch "example.com" sendFailNet) = some FailCat.TransferError ∧
    failCatOf (modernFetch "example.com" sendFailNet) = some FailCat.TransferError := by
  exact (c2_send_read_errors "example.com" sendFailNet [0] 0 rfl rfl).1 rfl

/-- Claim C3 counterexample: on a host resolving to one candidate that
refuses the connection, the async variant fails with
runtime_error "Failed to resolve host" — literally the same failure it
delivers on a genuine resolution error — so its failure reason indicates
resolution failure, not connection exhaustion. -/
theorem c3_counterexample :
    asyncFetch "example.com" refuseNet = .error (.runtimeError "Failed to resolve host") ∧
    asyncFetch "example.com" refuseNet = asyncFetch "example.com" resolveFailNet ∧
    failCatOf (asyncFetch "example.com" refuseNet) = some FailCat.ResolutionError ∧
    FailCat.ResolutionError ≠ FailCat.AllConnectionsFailedError :=
  ⟨rfl, rfl, by decide, by decide⟩

/-- Claim C3 as amended: when a non-empty candidate list is exhausted with
every candidate refusing, traditional fails with the system_error of the
last connect (a connection-category failure), modern fails with
runtime_error "Unable to connect to any host" (connection-category), but
async fails with runtime_error "Failed to resolve host", a
resolution-category reason indistinguishable from its resolution
failure. -/
theorem c3_exhaustion (host : String) (net : Network) (addrs : List Nat)
    (hres : net.resolved = some addrs) (hne : addrs ≠ [])
    (hall : ∀ a ∈ addrs, net.accepts a = false) :
    traditionalFetch host net = .error (.sysError "connect") ∧
    modernFetch host net = .error (.runtimeError "Unable to connect to any host") ∧
    asyncFetch host net = .error (.runtimeError "Failed to resolve host") ∧
    failCatOf (traditionalFetch host net) = some FailCat.AllConnectionsFailedError ∧
    failCatOf (modernFetch host net) = some FailCat.AllConnectionsFailedError ∧
    failCatOf (asyncFetch host net) = some FailCat.ResolutionError := by
  have hconn : boostConnect net.accepts addrs = none := by
    rw [boostConnect_eq_none_iff]
    simp only [List.all_eq_true]
    intro a ha
    simp [hall a ha]
  obtain ⟨ha, hm, _, ht⟩ := fetch_refused host net addrs hres hconn
  have ht2 := ht hne
  refine ⟨ht2, hm, ha, ?_, ?_, ?_⟩
  · rw [ht2]; decide
  · rw [hm]; decide
  · rw [ha]; decide

/-- Claim C3 witness: one candidate, refusing the connection. -/
theorem c3_witness :
    traditionalFetch "example.com" refuseNet = .error (.sysError "connect") ∧
    modernFetch "example.com" refuseNet = .error (.runtimeError "Unable to connect to any host") ∧
    asyncFetch "example.com" refuseNet = .error (.runtimeError "Failed to resolve host") ∧
    failCatOf (traditionalFetch "example.com" refuseNet) = some FailCat.AllConnectionsFailedError ∧
    failCatOf (modernFetch "example.com" refuseNet) = some FailCat.AllConnectionsFailedError ∧
    failCatOf (asyncFetch "example.com" refuseNet) = some FailCat.ResolutionError := by
  exact c3_exhaustion "example.com" refuseNet [0] rfl (by simp)
    (by intro a ha; rfl)

/-- Claim C4 counterexample: when the resolver reports success with an
empty candidate list, traditional fails with runtime_error "Failed to
connect to all/any address" and modern with runtime_error "Unable to
connect to any host" — connection-exhaustion reasons, not
resolution-category errors as the claim states for every variant. -/
theorem c4_counterexample :
    traditionalFetch "example.com" emptyListNet =
      .error (.runtimeError "Failed to connect to all/any address") ∧
    modernFetch "example.com" emptyListNet =
      .error (.runtimeError "Unable to connect to any host") ∧
    failCatOf (traditionalFetch "example.com" emptyListNet) =
      some FailCat.AllConnectionsFailedError ∧
    failCatOf (modernFetch "example.com" emptyListNet) =
      some FailCat.AllConnectionsFailedError ∧
    FailCat.AllConnectionsFailedError ≠ FailCat.ResolutionError :=
  ⟨rfl, rfl, by decide, by decide, by decide⟩

/-- Claim C4 as amended: on a resolver ERROR every variant fails with a
resolution-category failure and writes nothing to standard output; on an
EMPTY candidate list only async fails with its resolution-category
failure, while traditional and modern fail with their
connection-exhaustion failures — still writing nothing to standard
output. -/
theorem c4_resolution_failures (host : String) (net : Network) :
    (net.resolved = none →
      traditionalFetch host net = .error (.sysError "resolve") ∧
      asyncFetch host net = .error (.runtimeError "Failed to resolve host") ∧
      modernFetch host net = .error (.sysError "resolve") ∧
      failCatOf (traditionalFetch host net) = some FailCat.ResolutionError ∧
      failCatOf (asyncFetch host net) = some FailCat.ResolutionError ∧
      failCatOf (modernFetch host net) = some FailCat.ResolutionError ∧
      (traditionalProc host net).stdout = "" ∧
      (asyncProc host net).stdout = "" ∧
      (modernProc host net).stdout = "") ∧
    (net.resolved = some [] →
      asyncFetch host net = .error (.runtimeError "Failed to resolve host") ∧
      failCatOf (asyncFetch host net) = some FailCat.ResolutionError ∧
      traditionalFetch host net =
        .error (.runtimeError "Failed to connect to all/any address") ∧
      failCatOf (traditionalFetch host net) = some FailCat.AllConnectionsFailedError ∧
      modernFetch host net = .error (.runtimeError "Unable to connect to any host") ∧
      failCatOf (modernFetch host net) = some FailCat.AllConnectionsFailedError ∧
      (traditionalProc host net).stdout = "" ∧
      (asyncProc host net).stdout = "" ∧
      (modernProc host net).stdout = "") := by
  constructor
  · intro hres
    have et : traditionalFetch host net = .error (.sysError "resolve") := by
      simp [traditionalFetch, hres]
    have ea : asyncFetch host net = .error (.runtimeError "Failed to resolve host") := by
      simp [asyncFetch, hres]
    have em : modernFetch host net = .error (.sysError "resolve") := by
      simp [modernFetch, hres]
    refine ⟨et, ea, em, ?_, ?_, ?_, ?_, ?_, ?_⟩
    · rw [et]; decide
    · rw [ea]; decide
    · rw [em]; decide
    · simp only [traditionalProc, et]; decide
    · simp only [asyncProc, ea]; decide
    · simp only [modernProc, em]; decide
  · intro hres
    obtain ⟨ea, em, hnil, _⟩ :=
      fetch_refused host net [] hres rfl
    have et := hnil rfl
    refine ⟨ea, ?_, et, ?_, em, ?_, ?_, ?_, ?_⟩
    · rw [ea]; decide
    · rw [et]; decide
    · rw [em]; decide
    · simp only [traditionalProc, et]; decide
    · simp only [asyncProc, ea]; decide
    · simp only [modernProc, em]; decide

/-- Claim C4 witness: a resolver error (and, for the amended second part,
an empty candidate list). -/
theorem c4_witness :
    traditionalFetch "example.com" resolveFailNet = .error (.sysError "resolve") ∧
    asyncFetch "example.com" resolveFailNet =
      .error (.runtimeError "Failed to resolve host") ∧
    modernFetch "example.com" resolveFailNet = .error (.sysError "resolve") ∧
    failCatOf (traditionalFetch "example.com" resolveFailNet) =
      some FailCat.ResolutionError ∧
    failCatOf (asyncFetch "example.com" resolveFailNet) = some FailCat.ResolutionError ∧
    failCatOf (modernFetch "example.com" resolveFailNet) = some FailCat.ResolutionError ∧
    (traditionalProc "example.com" resolveFailNet).stdout = "" ∧
    (asyncProc "example.com" resolveFailNet).stdout = "" ∧
    (modernProc "example.com" resolveFailNet).stdout = "" := by
  exact (c4_resolution_failures "example.com" resolveFailNet).1 rfl

/-- Claim C1 counterexample: for the hostname resolving to a single
candidate that refuses the connection, async's failure is
resolution-category (literally its resolution-failure exception) while
traditional's and modern's failures are connection-exhaustion-category:
the three variants do not produce the same failure category. -/
theorem c1_counterexample :
    failCatOf (asyncFetch "example.com" refuseNet) = some FailCat.ResolutionError ∧
    failCatOf (modernFetch "example.com" refuseNet) =
      some FailCat.AllConnectionsFailedError ∧
    failCatOf (traditionalFetch "example.com" refuseNet) =
      some FailCat.AllConnectionsFailedError ∧
    some FailCat.ResolutionError ≠ some FailCat.AllConnectionsFailedError :=
  ⟨by decide, by decide, by decide, by decide⟩

/-- Claim C1 as amended: for every hostname and fixed network behavior the
three variants agree on success versus failure, on the success bytes, on
the bytes written to standard output, and on the process exit code;
traditional and modern also always agree on the failure category; async
agrees with them except exactly when resolution succeeds and every
candidate refuses the connection (including the empty list), where async
reports a resolution-category failure and the other two report a
connection-exhaustion-category failure. -/
theorem c1_equivalence (host : String) (net : Network) :
    resOk (traditionalFetch host net) = resOk (asyncFetch host net) ∧
    resOk (traditionalFetch host net) = resOk (modernFetch host net) ∧
    (traditionalProc host net).exitCode = (asyncProc host net).exitCode ∧
    (traditionalProc host net).exitCode = (modernProc host net).exitCode ∧
    (traditionalProc host net).stdout = (asyncProc host net).stdout ∧
    (traditionalProc host net).stdout = (modernProc host net).stdout ∧
    failCatOf (traditionalFetch host net) = failCatOf (modernFetch host net) ∧
    failCatOf (asyncFetch host net) =
      (if allRefused net then some FailCat.ResolutionError
       else failCatOf (traditionalFetch host net)) := by
  cases hres : net.resolved with
  | none =>
    have et : traditionalFetch host net = .error (.sysError "resolve") := by
      simp [traditionalFetch, hres]
    have ea : asyncFetch host net = .error (.runtimeError "Failed to resolve host") := by
      simp [asyncFetch, hres]
    have em : modernFetch host net = .error (.sysError "resolve") := by
      simp [modernFetch, hres]
    have har : allRefused net = false := by simp [allRefused, hres]
    simp only [traditionalProc, asyncProc, modernProc, et, ea, em, har]
    decide
  | some addrs =>
    cases hconn : boostConnect net.accepts addrs with
    | none =>
      have har : allRefused net = true := by
        simp only [allRefused, hres]
        exact (boostConnect_eq_none_iff _ _).mp hconn
      obtain ⟨ea, em, hnil, hcons⟩ := fetch_refused host net addrs hres hconn
      cases addrs with
      | nil =>
        have et := hnil rfl
        simp only [traditionalProc, asyncProc, modernProc, et, ea, em, har]
        decide
      | cons a0 rest =>
        have et := hcons (by simp)
        simp only [traditionalProc, asyncProc, modernProc, et, ea, em, har]
        decide
    | some a =>
      have har : allRefused net = false := by
        simp only [allRefused, hres]
        have hne : ¬ (addrs.all (fun x => !net.accepts x) = true) := by
          intro hall
          have hnone := (boostConnect_eq_none_iff net.accepts addrs).mpr hall
          rw [hnone] at hconn
          cases hconn
        simpa using hne
      obtain ⟨et, ea, em⟩ := fetch_connected host net addrs a hres hconn
      cases hs : (net.behavior a).sendOk with
      | false =>
        simp only [hs, Bool.false_eq_true, if_false] at et ea em
        simp only [traditionalProc, asyncProc, modernProc, et, ea, em, har]
        decide
      | true =>
        simp only [hs, if_true] at et ea em
        simp only [traditionalProc, asyncProc, modernProc, et, ea, em, har]
        simp [resOk, failCatOf, mapFail, traditionalMain, asyncMain, modernMain]

/-- Claim C5 counterexample: a caught failure without a description
(an exception not derived from std::exception) yields exit code -2 in the
async and modern variants, but in the traditional variant it is never
caught — main has no catch-all clause — so the process terminates without
returning any exit code: traditional's outcome is two-way, not
three-way. -/
theorem c5_counterexample :
    (traditionalMain (.error Exc.nonStd)).exitCode = none ∧
    (asyncMain (.error Exc.nonStd)).exitCode = some (-2) ∧
    (modernMain (.error Exc.nonStd)).exitCode = some (-2) :=
  ⟨rfl, rfl, rfl⟩

/-- Claim C5 as amended: the async and modern variants have the three-way
outcome the claim describes — exit 0 on success, exit -1 with a stderr
description for a caught std::exception, exit -2 with a stderr notice for
a caught failure without a description — and the three codes are
distinct; the traditional variant has only the first two outcomes (it
catches only std::exception), and a failure without a description escapes
main uncaught, producing no exit code. -/
theorem c5_exit_codes (page w : String) :
    asyncMain (.ok page) = ⟨some 0, page, ""⟩ ∧
    asyncMain (.error (.std w)) = ⟨some (-1), "", "Caught exception " ++ w ++ "\n"⟩ ∧
    asyncMain (.error .nonStd) = ⟨some (-2), "", "Caught exception!\n"⟩ ∧
    modernMain (.ok page) = ⟨some 0, page, ""⟩ ∧
    modernMain (.error (.std w)) = ⟨some (-1), "", "Caught exception " ++ w ++ "\n"⟩ ∧
    modernMain (.error .nonStd) = ⟨some (-2), "", "Caught exception!\n"⟩ ∧
    traditionalMain (.ok page) = ⟨some 0, page, ""⟩ ∧
    traditionalMain (.error (.std w)) = ⟨some (-1), "", "ERROR: " ++ w ++ "\n"⟩ ∧
    traditionalMain (.error .nonStd) = ⟨none, "", ""⟩ ∧
    (0 : Int) ≠ -1 ∧ (0 : Int) ≠ -2 ∧ (-1 : Int) ≠ -2 :=
  ⟨rfl, rfl, rfl, rfl, rfl, rfl, rfl, rfl, rfl, by decide, by decide, by decide⟩

/-- On a two-entry argv the assert condition reduces to non-emptiness of
the argument. -/
theorem argvOk_pair (p a : String) : argvOk [p, a] = !a.isEmpty := rfl

theorem stringNotEmpty_iff (a : String) : (!a.isEmpty) = true ↔ a ≠ "" := by
  rw [Bool.not_eq_true']
  rw [← Bool.not_eq_true]
  exact not_congr (String.isEmpty_iff a)

/-- Claim C10: the argv precondition holds exactly for an argv of the form
[program-name, argument] with a non-empty argument; when it fails, each
variant aborts at the assert before any fetch begins, producing no exit
code, no standard output and no program-written failure description; and
no other validation exists — for EVERY non-empty argument the program
proceeds straight to the fetch. -/
theorem c10_argv_assert (args : List String) (net : Network) :
    (argvOk args = true ↔ ∃ p a, args = [p, a] ∧ a ≠ "") ∧
    (argvOk args = false →
      traditionalProgram args net = abortResult ∧
      asyncProgram args net = abortResult ∧
      modernProgram args net = abortResult) ∧
    (∀ p a, a ≠ "" →
      traditionalProgram [p, a] net = traditionalProc a net ∧
      asyncProgram [p, a] net = asyncProc a net ∧
      modernProgram [p, a] net = modernProc a net) := by
  refine ⟨?_, ?_, ?_⟩
  · cases args with
    | nil => simp [argvOk]
    | cons p t =>
      cases t with
      | nil => simp [argvOk]
      | cons a t2 =>
        cases t2 with
        | nil =>
          rw [argvOk_pair, stringNotEmpty_iff]
          constructor
          · intro h
            exact ⟨p, a, rfl, h⟩
          · rintro ⟨p1, a1, heq, hne⟩
            injection heq with h1 h2
            injection h2 with h2a h2b
            subst h2a
            exact hne
        | cons b t3 =>
          simp [argvOk]
  · intro hbad
    refine ⟨?_, ?_, ?_⟩ <;>
      simp [traditionalProgram, asyncProgram, modernProgram, hbad]
  · intro p a hne
    have hok : argvOk [p, a] = true := by
      rw [argvOk_pair, stringNotEmpty_iff]
      exact hne
    refine ⟨?_, ?_, ?_⟩ <;>
      simp [traditionalProgram, asyncProgram, modernProgram, hok]

/-- Claim C10 witness: an argv with no argument aborts every variant
before any fetch, and a well-formed argv proceeds to the fetch. -/
theorem c10_witness :
    argvOk ["prog"] = false ∧
    traditionalProgram ["prog"] resolveFailNet = abortResult ∧
    asyncProgram ["prog"] resolveFailNet = abortResult ∧
    modernProgram ["prog"] resolveFailNet = abortResult := by
  have h := (c10_argv_assert ["prog"] resolveFailNet).2.1 rfl
  exact ⟨rfl, h.1, h.2.1, h.2.2⟩
